import Mathlib

/-!
Shallow embedding of the Dropbox-Shopify scanner-router pipeline.

The repository has three variants of the pipeline:
  * `scanner_router.py` (watchdog variant), embedded in namespace `SR`;
  * `scanner_router_interactive.py`, embedded in namespace `Interactive`;
  * `scanner_router_direct.py` (direct polling variant), embedded in
    namespace `Direct`.

Modelling conventions:
  * times (`st_mtime`, `time.time()`) are integers in milliseconds, so the
    0.5-second constant of `_is_sane_file` becomes `500` and the configured
    `SETTLE_SECONDS` becomes an integer parameter `settle`;
  * the local filesystem view of one scan folder is a list of directory
    entries (regular files with name, relative path, size and mtime, plus
    bare sub-directories), matching what `glob("**/*")` / `rglob("*")`
    return; files are assumed to exist for the whole run, so the
    `FileNotFoundError` branch of `_is_sane_file` does not arise;
  * remote calls are oracles: `ok : String -> Bool` gives the final outcome
    (after the tenacity retries) of uploading to a destination path,
    `resolveLink`/`makeLink` model `sharing_get_shared_link_metadata` and
    `sharing_create_shared_link_with_settings`;
  * the processed ledger (`STATE`, `.processed_jobs.json`) is the list of
    keys stored as `true`; `STATE.get(key)` is list membership.
-/

namespace Scanner

/-- A regular file as seen when listing a scan folder: base name, path
relative to the scan folder (POSIX separators), size in bytes and
modification time in epoch milliseconds. -/
structure LocalFile where
  name : String
  relPath : String
  size : Nat
  mtime : Int
deriving DecidableEq, Repr

/-- One entry of a recursive directory listing (`glob("**/*")`): either a
regular file or a sub-directory. -/
inductive Entry
  | file (f : LocalFile)
  | dir (name : String)
deriving DecidableEq, Repr

/-- The regular files of a listing, in listing order (the `if f.is_file()`
filter used by both readiness checks and the uploaders). -/
def Entry.files : List Entry → List LocalFile
  | [] => []
  | .file f :: es => f :: Entry.files es
  | .dir _ :: es => Entry.files es

/-- `max(mtimes, default=0)`: Python's `max` with a default for the empty
list; on a non-empty list it is the true maximum. -/
def maxMtime : List Int → Int
  | [] => 0
  | x :: xs => xs.foldl max x

/-- Observable actions of one discover-and-dispatch cycle: attempting the
upload of a job to a destination, and recording the job key in the
processed ledger. The list order of events is their temporal order. -/
inductive Event
  | mark (key : String)
  | upload (key : String) (dest : String)
deriving DecidableEq, Repr

/-- The job key an event is about. -/
def Event.key : Event → String
  | .mark k => k
  | .upload k _ => k

/-- The Shopify order node fields the pipeline reads: order gid, order
`name` (may carry a leading `#`), order-level email, and the customer's
gid, email and `dropbox` metafield value (the stored shared-link URL). -/
structure OrderNode where
  orderGid : String
  name : String
  orderEmail : Option String
  customerGid : Option String
  customerEmail : Option String
  metafieldValue : Option String
deriving DecidableEq, Repr

/-- Python truthiness for an optional string: `None` and `""` are falsy. -/
def truthy : Option String → Option String
  | none => none
  | some s => if s = "" then none else some s

/-- Python `name.startswith(".")`: the first character is a dot. -/
def starts_with_dot (s : String) : Bool :=
  match s.data with
  | [] => false
  | c :: _ => c = '.'

/-- Python `str.strip()`: drop whitespace from both ends. -/
def py_strip (s : String) : String :=
  String.mk
    (((s.data.dropWhile Char.isWhitespace).reverse.dropWhile
      Char.isWhitespace).reverse)

/-- Python `str.lower()` (the inputs here are ASCII). -/
def py_lower (s : String) : String :=
  String.mk (s.data.map Char.toLower)

/-- The on-disk condition of `.processed_jobs.json` when `load_state`
runs: absent, present but not valid JSON, or parsed to a key set. -/
inductive LedgerFile
  | missing
  | corrupt
  | parsed (marked : List String)
deriving DecidableEq, Repr

/-- `load_state` (identical in `scanner_router.py` and
`scanner_router_direct.py`): a missing file and an unparsable file both
yield the empty map; otherwise the parsed map's true keys. -/
def load_state : LedgerFile → List String
  | .missing => []
  | .corrupt => []
  | .parsed m => m

end Scanner

namespace SR

open Scanner

/-- `SKIP_PATTERNS` of `scanner_router.py`. -/
def SKIP_PATTERNS : List String := [".DS_Store", "Thumbs.db", "desktop.ini"]

/-- `_is_sane_file`: reject hidden files and OS junk names, zero-byte
files, and files modified within the last 0.5 s (500 ms). -/
def is_sane_file (now : Int) (f : LocalFile) : Bool :=
  if starts_with_dot f.name || SKIP_PATTERNS.contains f.name then false
  else if f.size = 0 then false
  else if now - f.mtime < 500 then false
  else true

/-- The file set `upload_folder` of `scanner_router.py` collects: every
regular file under the folder that passes `_is_sane_file`. -/
def upload_set (now : Int) (files : List LocalFile) : List LocalFile :=
  files.filter (is_sane_file now)

/-- Outcome of one `upload_folder` call: the destination paths attempted
in submission order, the count of successes returned to the caller, and
the size of the collected file set. -/
structure UploadResult where
  uploads : List String
  count : Nat
  total : Nat
deriving DecidableEq, Repr

/-- `upload_folder` of `scanner_router.py`: collect the sane files,
compute `dest = dropbox_photos_dir/rel`, upload each (in parallel; `ok`
is the final per-destination outcome after the tenacity retries) and
return the number of successes. -/
def upload_folder (now : Int) (files : List LocalFile) (photosDir : String)
    (ok : String → Bool) : UploadResult :=
  let dests := (upload_set now files).map (fun f => photosDir ++ "/" ++ f.relPath)
  { uploads := dests, count := dests.countP ok, total := dests.length }

/-- `resolve_link_to_path` may fail (`None`) and `path_lower` may be
absent, and an empty path is falsy; the caller re-checks truthiness. -/
def get_or_create_customer_root (dropboxRoot : String)
    (resolveLink : String → Option String) (makeLink : String → Option String)
    (node : OrderNode) : String × Option String :=
  let email := py_strip (node.customerEmail.getD (node.orderEmail.getD "unknown"))
  let fallback :=
    let rootPath := dropboxRoot ++ "/" ++ email
    (rootPath, makeLink rootPath)
  match truthy node.metafieldValue with
  | some savedLink =>
      match truthy (resolveLink savedLink) with
      | some path => (path, some savedLink)
      | none => fallback
  | none => fallback

/-- `build_dest_paths_from_root`'s sanitizer: drop `#`, replace `/` and
`\` with `_`. -/
def sanitize_order_no (s : String) : String :=
  String.mk ((s.toList.filter (fun c => c ≠ '#')).map
    (fun c => if c = '/' || c = '\\' then '_' else c))

/-- `build_dest_paths_from_root`: `<root>/<sanitized order>/<twin_check>`
(both returned components are equal). -/
def build_dest_paths_from_root (rootPath orderNo twinCheck : String) : String × String :=
  let base := rootPath ++ "/" ++ sanitize_order_no orderNo ++ "/" ++ twinCheck
  (base, base)

/-- `Handler._ready`: list every regular file under the folder (junk
included), require at least one, and require the newest mtime to be
strictly older than `SETTLE_SECONDS`. -/
def ready (now settle : Int) (entries : List Entry) : Bool :=
  let files := Entry.files entries
  if files.isEmpty then false
  else decide (now - maxMtime (files.map (fun f => f.mtime)) > settle)

/-- What `pick_order_cli` returned for a job: defer to staging, or assign
a picked Shopify order. -/
inductive Selection
  | stage
  | assign (node : OrderNode)
deriving Repr

/-- The configuration and oracles one watcher run closes over. -/
structure Config where
  dropboxRoot : String
  now : Int
  settle : Int
  ok : String → Bool
  resolveLink : String → Option String
  makeLink : String → Option String
  selOf : String → Selection

/-- `route_job`: stage branch uploads to
`<root>/_staging/<date>/<twin>/photos`; assign branch resolves the
customer root, builds the Style-B destination and uploads. Returns the
upload event and the success count (the Shopify tag/note side effects do
not touch the ledger and are omitted). -/
def route_job (cfg : Config) (batch scanName : String) (files : List LocalFile) :
    List Event × Nat :=
  let key := batch ++ "/" ++ scanName
  match cfg.selOf key with
  | .stage =>
      let dest := cfg.dropboxRoot ++ "/_staging/" ++ batch ++ "/" ++ scanName ++ "/photos"
      let r := upload_folder cfg.now files dest cfg.ok
      ([Event.upload key dest], r.count)
  | .assign node =>
      let rootPath := (get_or_create_customer_root cfg.dropboxRoot cfg.resolveLink
        cfg.makeLink node).1
      let dest := (build_dest_paths_from_root rootPath node.name scanName).1
      let r := upload_folder cfg.now files dest cfg.ok
      ([Event.upload key dest], r.count)

/-- One iteration of `Handler._scan_tree`'s inner loop for the folder
`<batch>/<scanName>`: skip keys already in the ledger, skip non-ready
folders, otherwise mark the key processed FIRST (the code's comment:
mark immediately to prevent duplicate detection) and then run
`route_job`. The event list order is the temporal order. -/
def process_job (cfg : Config) (ledger : List String) (batch scanName : String)
    (entries : List Entry) : List Event × List String :=
  let key := batch ++ "/" ++ scanName
  if ledger.contains key then ([], ledger)
  else if !(ready cfg.now cfg.settle entries) then ([], ledger)
  else
    let r := route_job cfg batch scanName (Entry.files entries)
    (Event.mark key :: r.1, key :: ledger)

/-- The inner loop of `_scan_tree` over the scan folders of one batch
(date) directory, threading the ledger. -/
def scan_batch (cfg : Config) (ledger : List String) (batch : String) :
    List (String × List Entry) → List Event × List String
  | [] => ([], ledger)
  | (s, es) :: rest =>
      let r1 := process_job cfg ledger batch s es
      let r2 := scan_batch cfg r1.2 batch rest
      (r1.1 ++ r2.1, r2.2)

/-- `Handler._scan_tree` over the watch root: batch directories each
holding scan folders, in listing (sorted) order. -/
def scan_tree (cfg : Config) (ledger : List String) :
    List (String × List (String × List Entry)) → List Event × List String
  | [] => ([], ledger)
  | (b, scans) :: rest =>
      let r1 := scan_batch cfg ledger b scans
      let r2 := scan_tree cfg r1.2 rest
      (r1.1 ++ r2.1, r2.2)

end SR

namespace Interactive

open Scanner

/-- `get_or_create_customer_root` of `scanner_router_interactive.py`:
when a saved link exists it is returned VERBATIM as both the root path
and the link (no `resolve_link_to_path` call); otherwise the root is
`<root>/<email>` and a shared link is created for it. -/
def get_or_create_customer_root (dropboxRoot : String)
    (makeLink : String → Option String) (node : OrderNode) : String × Option String :=
  let email := py_strip (node.customerEmail.getD (node.orderEmail.getD "unknown"))
  match truthy node.metafieldValue with
  | some savedLink => (savedLink, some savedLink)
  | none =>
      let rootPath := dropboxRoot ++ "/" ++ email
      (rootPath, makeLink rootPath)

end Interactive

namespace Direct

open Scanner

/-- `_is_ready` of `scanner_router_direct.py`: the listing must be
non-empty, there must be at least one regular file, and the newest
regular-file mtime must be strictly older than `SETTLE_SECONDS`
(`time_since_mod <= SETTLE_SECONDS` keeps the folder not ready). -/
def is_ready (now settle : Int) (entries : List Entry) : Bool :=
  if entries.isEmpty then false
  else
    let fileFiles := Entry.files entries
    if fileFiles.isEmpty then false
    else decide (now - maxMtime (fileFiles.map (fun f => f.mtime)) > settle)

/-- `ensure_customer_order_folder`: the customer root is always
`<DROPBOX_ROOT>/<email>` (the stored metafield link, when present, only
skips the background shared-link task; the comment in the source says to
use `DROPBOX_ROOT` directly and skip the slow existence check). The
order path appends the order number, `#` stripped; an order name that is
empty after stripping falls back to its digits, or to `"order"`. -/
def ensure_customer_order_folder (dropboxRoot : String) (node : OrderNode) :
    String × String :=
  let email := py_lower (py_strip (node.customerEmail.getD (node.orderEmail.getD "unknown")))
  let rootPath := dropboxRoot ++ "/" ++ email
  let stripped := py_strip (String.mk (node.name.toList.filter (fun c => c ≠ '#')))
  let orderNumber :=
    if stripped ≠ "" then stripped
    else
      let digits := String.mk (node.name.toList.filter Char.isDigit)
      if digits ≠ "" then digits else "order"
  (rootPath, rootPath ++ "/" ++ orderNumber)

/-- `upload_folder` of `scanner_router_direct.py`: collect EVERY regular
file under the folder (no junk filtering), upload each sequentially to
`<dropbox_path>/<rel>`, then, when a `WPPC.jpg` sits next to the program,
upload it last to `<dropbox_path>/WPPC.jpg`; it is counted in the total
and, when its upload succeeds, in the returned success count. `ok` is the
final per-destination outcome after the retry logic. -/
def upload_folder (files : List LocalFile) (dropboxPath : String)
    (wppcExists : Bool) (ok : String → Bool) : SR.UploadResult :=
  let dests := files.map (fun f => dropboxPath ++ "/" ++ f.relPath)
  let wppcDest := dropboxPath ++ "/WPPC.jpg"
  { uploads := dests ++ (if wppcExists then [wppcDest] else [])
    count := dests.countP ok + (if wppcExists && ok wppcDest then 1 else 0)
    total := dests.length + (if wppcExists then 1 else 0) }

/-- A tag separator of `re.split(r"[,\s]+", ...)`. -/
def isTagSep (c : Char) : Bool := c = ',' || c.isWhitespace

/-- `re.split(r"[,\s]+", s)` followed by dropping the empty pieces: the
maximal runs of non-separator characters. `acc` holds the current run,
reversed. -/
def splitRuns : List Char → List Char → List String
  | [], acc => if acc.isEmpty then [] else [String.mk acc.reverse]
  | c :: cs, acc =>
      if isTagSep c then
        if acc.isEmpty then splitRuns cs []
        else String.mk acc.reverse :: splitRuns cs []
      else splitRuns cs (c :: acc)

/-- Python `str.strip()` on a character list: drop whitespace from both
ends. -/
def stripWS (l : List Char) : List Char :=
  ((l.dropWhile Char.isWhitespace).reverse.dropWhile Char.isWhitespace).reverse

/-- Python `str.lstrip(' ,')`. -/
def lstripSpaceComma (l : List Char) : List Char :=
  l.dropWhile (fun c => c = ' ' || c = ',')

/-- The combined-query parser of `set_order`/`set_order_gui`: the regex
match on the single-line input against an optional `#`, a greedy
non-empty digit run, and the rest; the rest is stripped, lstripped of
spaces and commas, and split into tags on comma/whitespace runs. `none`
when the regex does not match (no leading digit run). -/
def parse_order_query (raw : String) : Option (String × List String) :=
  let cs := raw.toList
  let cs1 := match cs with
    | '#' :: rest => rest
    | _ => cs
  let digits := cs1.takeWhile Char.isDigit
  if digits.isEmpty then none
  else
    let trailing := stripWS (cs1.dropWhile Char.isDigit)
    let tags := if trailing.isEmpty then [] else splitRuns (lstripSpaceComma trailing) []
    some (String.mk digits, tags)

/-- `current_order_data`: staging mode, or an assigned order carrying the
order gid/number/email, the order node, the Dropbox order path once the
(background) folder setup filled it in, and the pending tags. -/
inductive OrderData
  | stage
  | assigned (gid no email : String) (node : OrderNode) (orderPath : Option String)
      (pendingTags : List String)
deriving Repr

/-- Shopify mutations fired while changing the assignment. -/
inductive Action
  | applyTags (gid : String) (tags : List String)
deriving DecidableEq, Repr

/-- `order_no = order["name"]` with a leading `#` stripped. -/
def strip_hash (s : String) : String :=
  match s.toList with
  | '#' :: r => String.mk r
  | _ => s

/-- `set_order_gui`: empty input or `stage` switches to staging; else the
query is parsed, any non-empty pending tags of the previous Assigned
state are applied (best-effort) to the PREVIOUS order and cleared, the
order is searched (`search` returns the first `name:<num>` match), and on
a hit the state is replaced with the new assignment carrying the parsed
tags as pending (the Dropbox paths are filled by a background thread,
hence `none`). Returns (fired actions, new state, success flag). -/
def set_order_gui (search : String → Option OrderNode) (st : Option OrderData)
    (raw : String) (tagsOverride : Option (List String)) :
    List Action × Option OrderData × Bool :=
  if raw = "" || py_lower raw = "stage" then
    ([], some .stage, true)
  else
    let parsedNum := match parse_order_query raw with
      | some p => p.1
      | none => raw
    let parsedTags := match tagsOverride with
      | some ts => ts
      | none =>
        match parse_order_query raw with
        | some p => p.2
        | none => []
    let applied := match st with
      | some (.assigned gid no email node op pend) =>
          if !pend.isEmpty && gid ≠ "" then
            ([Action.applyTags gid pend], some (OrderData.assigned gid no email node op []))
          else ([], st)
      | _ => ([], st)
    match search parsedNum with
    | none => (applied.1, applied.2, false)
    | some node =>
        (applied.1,
         some (OrderData.assigned node.orderGid (strip_hash node.name)
           (node.orderEmail.getD "unknown") node none parsedTags),
         true)

/-- Configuration and oracles of one direct-variant run. -/
structure Config where
  dropboxRoot : String
  now : Int
  settle : Int
  wppcExists : Bool
  ok : String → Bool

/-- The destination `process_scan` computes for a scan folder: staging
uses `<root>/_staging/<scan name>`; an assignment uses the cached
`dropbox_order_path` (or `ensure_customer_order_folder` when it is not
yet set) with the scan name appended. -/
def scan_dest (cfg : Config) (order : OrderData) (scanName : String) : String :=
  match order with
  | .stage => cfg.dropboxRoot ++ "/_staging/" ++ scanName
  | .assigned _ _ _ node orderPath _ =>
      let op := match orderPath with
        | some p => p
        | none => (ensure_customer_order_folder cfg.dropboxRoot node).2
      op ++ "/" ++ scanName

/-- `process_scan`: skip keys in the ledger (the direct variant keys the
ledger by the bare scan-folder name), skip non-ready folders, upload,
and mark the key processed ONLY when the returned count is non-zero
(`uploaded == 0` returns before the mark). The event list order is the
temporal order. -/
def process_scan (cfg : Config) (ledger : List String) (order : OrderData)
    (scanName : String) (entries : List Entry) : List Event × List String :=
  if ledger.contains scanName then ([], ledger)
  else if !(is_ready cfg.now cfg.settle entries) then ([], ledger)
  else
    let dest := scan_dest cfg order scanName
    let r := upload_folder (Entry.files entries) dest cfg.wppcExists cfg.ok
    if r.count = 0 then ([Event.upload scanName dest], ledger)
    else ([Event.upload scanName dest, Event.mark scanName], scanName :: ledger)

/-- The main scanning loop's pass over the watch root's child folders,
threading the ledger through `process_scan`. -/
def scan_loop (cfg : Config) (ledger : List String) (order : OrderData) :
    List (String × List Entry) → List Event × List String
  | [] => ([], ledger)
  | (s, es) :: rest =>
      let r1 := process_scan cfg ledger order s es
      let r2 := scan_loop cfg r1.2 order rest
      (r1.1 ++ r2.1, r2.2)

end Direct

namespace Scanner

/-- Spec-side: a junk file per the spec's junk-filtering sentence — the
three OS-junk names, any dotfile, or any zero-byte file. -/
def is_junk (f : LocalFile) : Bool :=
  f.name = ".DS_Store" || f.name = "Thumbs.db" || f.name = "desktop.ini" ||
  starts_with_dot f.name || f.size == 0

/-- Readiness as the claim words it: at least one NON-JUNK file exists
and the time since the maximum mtime over those non-junk files exceeds
the settle threshold. -/
def ready_spec_nonjunk (now settle : Int) (entries : List Entry) : Bool :=
  let nj := (Entry.files entries).filter (fun f => !is_junk f)
  !nj.isEmpty && decide (now - maxMtime (nj.map (fun f => f.mtime)) > settle)

/-- Readiness as the code computes it, worded from the amended claim: at
least one regular file of ANY kind (junk included) exists and the time
since the maximum mtime over ALL regular files exceeds the settle
threshold. -/
def ready_spec_all (now settle : Int) (entries : List Entry) : Bool :=
  let fs := Entry.files entries
  !fs.isEmpty && decide (now - maxMtime (fs.map (fun f => f.mtime)) > settle)

end Scanner

namespace Samples

open Scanner

/-- A settled ordinary photo file. -/
def photo : LocalFile :=
  { name := "a.jpg", relPath := "a.jpg", size := 5, mtime := 0 }

/-- A settled, non-empty `.DS_Store` junk file. -/
def dsStore : LocalFile :=
  { name := ".DS_Store", relPath := ".DS_Store", size := 7, mtime := 0 }

/-- Upload oracle: every destination succeeds. -/
def okAll : String → Bool := fun _ => true

/-- Upload oracle: every destination fails (network down / permanent
errors on every file). -/
def okNone : String → Bool := fun _ => false

/-- A watchdog-variant run: default root, 1 s settle, staging selection,
all uploads succeeding. -/
def srCfgStage : SR.Config :=
  { dropboxRoot := "/Store/orders", now := 10000000, settle := 1000,
    ok := okAll, resolveLink := fun _ => none, makeLink := fun _ => none,
    selOf := fun _ => SR.Selection.stage }

/-- The same run with every upload failing. -/
def srCfgStageFail : SR.Config := { srCfgStage with ok := okNone }

/-- A direct-variant run: default root, 0.5 s settle, no `WPPC.jpg`
companion, all uploads succeeding. -/
def dCfg : Direct.Config :=
  { dropboxRoot := "/Orders", now := 10000000, settle := 500,
    wppcExists := false, ok := okAll }

/-- One batch directory holding one settled scan folder. -/
def tree1 : List (String × List (String × List Entry)) :=
  [("2024-01-15", [("roll_001", [Entry.file photo])])]

/-- An order node whose customer record carries a stored shared-link
URL. -/
def nodeLinked : OrderNode :=
  { orderGid := "gid://shopify/Order/1", name := "#100",
    orderEmail := some "a@b.com",
    customerGid := some "gid://shopify/Customer/9",
    customerEmail := some "a@b.com",
    metafieldValue := some "https://www.dropbox.com/scl/fo/x" }

/-- A shared-link resolver that maps the stored URL of `nodeLinked` to
its canonical (relocated) remote path. -/
def rlSample : String → Option String := fun u =>
  if u = "https://www.dropbox.com/scl/fo/x" then
    some "/team folder/customers/a@b.com"
  else none

/-- An order node without any stored link. -/
def nodePlain : OrderNode :=
  { orderGid := "gid://shopify/Order/2", name := "#136720",
    orderEmail := some "c@d.com", customerGid := none,
    customerEmail := none, metafieldValue := none }

/-- An order search returning `nodePlain` for the query `136720`. -/
def searchSample : String → Option OrderNode := fun q =>
  if q = "136720" then some nodePlain else none

end Samples

namespace SR

open Scanner

/-- Both `route_job` branches attempt exactly one folder upload, for the
job's composite key. -/
lemma route_job_events (cfg : Config) (b s : String) (files : List LocalFile) :
    ∃ d, (route_job cfg b s files).1 = [Event.upload (b ++ "/" ++ s) d] := by
  rcases hsel : cfg.selOf (b ++ "/" ++ s) with _ | node
  · exact ⟨cfg.dropboxRoot ++ "/_staging/" ++ b ++ "/" ++ s ++ "/photos",
      by simp [route_job, hsel]⟩
  · exact ⟨(build_dest_paths_from_root
        (get_or_create_customer_root cfg.dropboxRoot cfg.resolveLink
          cfg.makeLink node).1 node.name s).1,
      by simp [route_job, hsel]⟩

/-- A `_scan_tree` iteration either skips the folder untouched, or (when
its key is not yet in the ledger) marks the key and attempts the upload. -/
lemma process_job_cases (cfg : Config) (l : List String) (b s : String)
    (es : List Entry) :
    process_job cfg l b s es = ([], l) ∨
    ((b ++ "/" ++ s) ∉ l ∧ ∃ d, process_job cfg l b s es =
      ([Event.mark (b ++ "/" ++ s), Event.upload (b ++ "/" ++ s) d],
        (b ++ "/" ++ s) :: l)) := by
  by_cases h1 : (b ++ "/" ++ s) ∈ l
  · have h1' : l.contains (b ++ "/" ++ s) = true := by simpa using h1
    left
    simp [process_job, h1', h1]
  · have h1' : l.contains (b ++ "/" ++ s) = false := by simpa using h1
    cases h2 : ready cfg.now cfg.settle es
    · left; simp [process_job, h1', h1, h2]
    · right
      obtain ⟨d, hd⟩ := route_job_events cfg b s (Entry.files es)
      exact ⟨h1, d, by simp [process_job, h1', h1, h2, hd]⟩

/-- A key already in the ledger is never dispatched by a `_scan_tree`
iteration and stays in the ledger. -/
lemma process_job_skip (cfg : Config) (l : List String) (b s : String)
    (es : List Entry) (k : String) (hk : k ∈ l) :
    (∀ e ∈ (process_job cfg l b s es).1, e.key ≠ k) ∧
      k ∈ (process_job cfg l b s es).2 := by
  rcases process_job_cases cfg l b s es with h | ⟨hnot, d, h⟩
  · rw [h]; exact ⟨by simp, hk⟩
  · rw [h]
    have hne : b ++ "/" ++ s ≠ k := fun hkey => hnot (hkey ▸ hk)
    constructor
    · intro e he
      simp only [List.mem_cons, List.not_mem_nil, or_false] at he
      rcases he with rfl | rfl
      · simpa [Event.key] using hne
      · simpa [Event.key] using hne
    · exact List.mem_cons_of_mem _ hk

/-- Over a batch directory: a key already in the ledger is never
dispatched and stays in the ledger. -/
lemma scan_batch_skip (cfg : Config) (b : String) (k : String) :
    ∀ (scans : List (String × List Entry)) (l : List String), k ∈ l →
    (∀ e ∈ (scan_batch cfg l b scans).1, e.key ≠ k) ∧
      k ∈ (scan_batch cfg l b scans).2 := by
  intro scans
  induction scans with
  | nil => intro l hk; exact ⟨by simp [scan_batch], by simpa [scan_batch] using hk⟩
  | cons hd rest ih =>
      intro l hk
      obtain ⟨h1, h2⟩ := process_job_skip cfg l b hd.1 hd.2 k hk
      obtain ⟨h3, h4⟩ := ih _ h2
      refine ⟨?_, by simpa [scan_batch] using h4⟩
      intro e he
      simp only [scan_batch, List.mem_append] at he
      rcases he with he | he
      · exact h1 e he
      · exact h3 e he

/-- Over the whole watch root: a key already in the ledger is never
dispatched by `_scan_tree` and stays in the ledger. -/
lemma scan_tree_skip (cfg : Config) (k : String) :
    ∀ (tree : List (String × List (String × List Entry))) (l : List String),
    k ∈ l →
    (∀ e ∈ (scan_tree cfg l tree).1, e.key ≠ k) ∧
      k ∈ (scan_tree cfg l tree).2 := by
  intro tree
  induction tree with
  | nil => intro l hk; exact ⟨by simp [scan_tree], by simpa [scan_tree] using hk⟩
  | cons hd rest ih =>
      intro l hk
      obtain ⟨h1, h2⟩ := scan_batch_skip cfg hd.1 k hd.2 l hk
      obtain ⟨h3, h4⟩ := ih _ h2
      refine ⟨?_, by simpa [scan_tree] using h4⟩
      intro e he
      simp only [scan_tree, List.mem_append] at he
      rcases he with he | he
      · exact h1 e he
      · exact h3 e he

end SR

namespace Direct

open Scanner

/-- A `process_scan` call either skips the folder untouched, attempts the
upload and (zero successes) leaves the ledger alone, or attempts the
upload and then marks the bare scan name. -/
lemma process_scan_cases (cfg : Config) (l : List String) (o : OrderData)
    (s : String) (es : List Entry) :
    process_scan cfg l o s es = ([], l) ∨
    (s ∉ l ∧ ((∃ d, process_scan cfg l o s es = ([Event.upload s d], l)) ∨
      (∃ d, process_scan cfg l o s es =
        ([Event.upload s d, Event.mark s], s :: l)))) := by
  by_cases h1 : s ∈ l
  · have h1' : l.contains s = true := by simpa using h1
    left
    simp [process_scan, h1', h1]
  · have h1' : l.contains s = false := by simpa using h1
    cases h2 : is_ready cfg.now cfg.settle es
    · left; simp [process_scan, h1', h1, h2]
    · right
      refine ⟨h1, ?_⟩
      by_cases h3 : (upload_folder (Entry.files es) (scan_dest cfg o s)
          cfg.wppcExists cfg.ok).count = 0
      · exact Or.inl ⟨scan_dest cfg o s, by simp [process_scan, h1', h1, h2, h3]⟩
      · exact Or.inr ⟨scan_dest cfg o s, by simp [process_scan, h1', h1, h2, h3]⟩

/-- A key already in the ledger is never dispatched by `process_scan`
and stays in the ledger. -/
lemma process_scan_skip (cfg : Config) (l : List String) (o : OrderData)
    (s : String) (es : List Entry) (k : String) (hk : k ∈ l) :
    (∀ e ∈ (process_scan cfg l o s es).1, e.key ≠ k) ∧
      k ∈ (process_scan cfg l o s es).2 := by
  rcases process_scan_cases cfg l o s es with h | ⟨hnot, ⟨d, h⟩ | ⟨d, h⟩⟩ <;> rw [h]
  · exact ⟨by simp, hk⟩
  · have hne : s ≠ k := fun hkey => hnot (hkey ▸ hk)
    refine ⟨?_, hk⟩
    intro e he
    simp only [List.mem_cons, List.not_mem_nil, or_false] at he
    subst he
    simpa [Event.key] using hne
  · have hne : s ≠ k := fun hkey => hnot (hkey ▸ hk)
    refine ⟨?_, List.mem_cons_of_mem _ hk⟩
    intro e he
    simp only [List.mem_cons, List.not_mem_nil, or_false] at he
    rcases he with rfl | rfl
    · simpa [Event.key] using hne
    · simpa [Event.key] using hne

/-- Over one polling pass: a key already in the ledger is never
dispatched and stays in the ledger. -/
lemma scan_loop_skip (cfg : Config) (o : OrderData) (k : String) :
    ∀ (scans : List (String × List Entry)) (l : List String), k ∈ l →
    (∀ e ∈ (scan_loop cfg l o scans).1, e.key ≠ k) ∧
      k ∈ (scan_loop cfg l o scans).2 := by
  intro scans
  induction scans with
  | nil => intro l hk; exact ⟨by simp [scan_loop], by simpa [scan_loop] using hk⟩
  | cons hd rest ih =>
      intro l hk
      obtain ⟨h1, h2⟩ := process_scan_skip cfg l o hd.1 hd.2 k hk
      obtain ⟨h3, h4⟩ := ih _ h2
      refine ⟨?_, by simpa [scan_loop] using h4⟩
      intro e he
      simp only [scan_loop, List.mem_append] at he
      rcases he with he | he
      · exact h1 e he
      · exact h3 e he

end Direct

namespace SR

open Scanner

/-- A ready folder whose key is not in the ledger is dispatched: its
upload is attempted. -/
lemma process_job_dispatches (cfg : Config) (l : List String) (b s : String)
    (es : List Entry) (hk : (b ++ "/" ++ s) ∉ l)
    (hr : ready cfg.now cfg.settle es = true) :
    ∃ d, Event.upload (b ++ "/" ++ s) d ∈ (process_job cfg l b s es).1 := by
  have h1' : l.contains (b ++ "/" ++ s) = false := by simpa using hk
  obtain ⟨d, hd⟩ := route_job_events cfg b s (Entry.files es)
  exact ⟨d, by simp [process_job, h1', hk, hr, hd]⟩

/-- A folder that is not ready, or whose key is already present, leaves
the iteration without effect. -/
lemma process_job_not_ready (cfg : Config) (l : List String) (b s : String)
    (es : List Entry) (hr : ready cfg.now cfg.settle es = false) :
    process_job cfg l b s es = ([], l) := by
  by_cases h1 : (b ++ "/" ++ s) ∈ l
  · have h1' : l.contains (b ++ "/" ++ s) = true := by simpa using h1
    simp [process_job, h1', h1]
  · have h1' : l.contains (b ++ "/" ++ s) = false := by simpa using h1
    simp [process_job, h1', h1, hr]

/-- Within one batch, a key the batch newly adds to the ledger was
uploaded in that batch. -/
lemma scan_batch_marks (cfg : Config) (b k : String) :
    ∀ (scans : List (String × List Entry)) (l : List String), k ∉ l →
    k ∈ (scan_batch cfg l b scans).2 →
    ∃ d, Event.upload k d ∈ (scan_batch cfg l b scans).1 := by
  intro scans
  induction scans with
  | nil => intro l hk hmem; exact absurd (by simpa [scan_batch] using hmem) hk
  | cons hd rest ih =>
      intro l hk hmem
      simp only [scan_batch] at hmem ⊢
      rcases process_job_cases cfg l b hd.1 hd.2 with h | ⟨hnot, d, h⟩
      · rw [h] at hmem ⊢
        obtain ⟨d, hdm⟩ := ih l hk hmem
        exact ⟨d, List.mem_append_right _ hdm⟩
      · rw [h] at hmem ⊢
        by_cases hkey : k = b ++ "/" ++ hd.1
        · subst hkey
          exact ⟨d, List.mem_append_left _ (by simp)⟩
        · have hk' : k ∉ (b ++ "/" ++ hd.1) :: l := by
            intro hmem'
            rcases List.mem_cons.mp hmem' with h' | h'
            · exact hkey h'
            · exact hk h'
          obtain ⟨d', hdm⟩ := ih _ hk' hmem
          exact ⟨d', List.mem_append_right _ hdm⟩

/-- Within one batch: if some folder of the batch is ready and carries a
key not yet in the ledger, that key's upload is attempted. -/
lemma scan_batch_dispatches (cfg : Config) (b k : String) :
    ∀ (scans : List (String × List Entry)) (l : List String), k ∉ l →
    (∃ s es, (s, es) ∈ scans ∧ b ++ "/" ++ s = k ∧
      ready cfg.now cfg.settle es = true) →
    ∃ d, Event.upload k d ∈ (scan_batch cfg l b scans).1 := by
  intro scans
  induction scans with
  | nil =>
      intro l _ hocc
      obtain ⟨s, es, hmem, -, -⟩ := hocc
      exact absurd hmem (by simp)
  | cons hd rest ih =>
      intro l hk hocc
      obtain ⟨s, es, hmem, hkey, hr⟩ := hocc
      simp only [scan_batch]
      rcases List.mem_cons.mp hmem with heq | hmem'
      · have hk' : (b ++ "/" ++ hd.1) ∉ l := by
          rw [← heq] at *
          rw [hkey]
          exact hk
        have hr' : ready cfg.now cfg.settle hd.2 = true := by
          rw [← heq]
          exact hr
        obtain ⟨d, hdm⟩ := process_job_dispatches cfg l b hd.1 hd.2 hk' hr'
        refine ⟨d, List.mem_append_left _ ?_⟩
        have : b ++ "/" ++ hd.1 = k := by rw [← heq] at *; exact hkey
        rwa [this] at hdm
      · by_cases hsame : b ++ "/" ++ hd.1 = k
        · cases hrdy : ready cfg.now cfg.settle hd.2
          · rw [process_job_not_ready cfg l b hd.1 hd.2 hrdy]
            obtain ⟨d, hdm⟩ := ih l hk ⟨s, es, hmem', hkey, hr⟩
            exact ⟨d, List.mem_append_right _ hdm⟩
          · have hk' : (b ++ "/" ++ hd.1) ∉ l := by rw [hsame]; exact hk
            obtain ⟨d, hdm⟩ := process_job_dispatches cfg l b hd.1 hd.2 hk' hrdy
            rw [hsame] at hdm
            exact ⟨d, List.mem_append_left _ hdm⟩
        · rcases process_job_cases cfg l b hd.1 hd.2 with h | ⟨hnot, d, h⟩
          · rw [h]
            obtain ⟨d, hdm⟩ := ih l hk ⟨s, es, hmem', hkey, hr⟩
            exact ⟨d, List.mem_append_right _ hdm⟩
          · rw [h]
            have hk' : k ∉ (b ++ "/" ++ hd.1) :: l := by
              intro hmem''
              rcases List.mem_cons.mp hmem'' with h' | h'
              · exact hsame h'.symm
              · exact hk h'
            obtain ⟨d', hdm⟩ := ih _ hk' ⟨s, es, hmem', hkey, hr⟩
            exact ⟨d', List.mem_append_right _ hdm⟩

/-- Over the watch root: any ready folder whose key is absent from the
ledger has its upload attempted by `_scan_tree`. -/
lemma scan_tree_dispatches (cfg : Config) (k : String) :
    ∀ (tree : List (String × List (String × List Entry))) (l : List String),
    k ∉ l →
    (∃ b scans, (b, scans) ∈ tree ∧ ∃ s es, (s, es) ∈ scans ∧
      b ++ "/" ++ s = k ∧ ready cfg.now cfg.settle es = true) →
    ∃ d, Event.upload k d ∈ (scan_tree cfg l tree).1 := by
  intro tree
  induction tree with
  | nil =>
      intro l _ hocc
      obtain ⟨bb, scans, hmem, -⟩ := hocc
      exact absurd hmem (by simp)
  | cons hd rest ih =>
      intro l hk hocc
      obtain ⟨bb, scans, hmem, s, es, hsmem, hkey, hr⟩ := hocc
      simp only [scan_tree]
      rcases List.mem_cons.mp hmem with heq | hmem'
      · subst heq
        obtain ⟨d, hdm⟩ := scan_batch_dispatches cfg bb k scans l hk
          ⟨s, es, hsmem, hkey, hr⟩
        exact ⟨d, List.mem_append_left _ hdm⟩
      · by_cases hmark : k ∈ (scan_batch cfg l hd.1 hd.2).2
        · obtain ⟨d, hdm⟩ := scan_batch_marks cfg hd.1 k hd.2 l hk hmark
          exact ⟨d, List.mem_append_left _ hdm⟩
        · obtain ⟨d, hdm⟩ := ih _ hmark ⟨bb, scans, hmem', s, es, hsmem, hkey, hr⟩
          exact ⟨d, List.mem_append_right _ hdm⟩

end SR

/-- C8: once a key has been marked processed in the ledger, no
subsequent poll of the watch root ever dispatches that key again: in
both variants a full scan pass over the watch root emits no event (no
upload attempt, no re-mark) for a key already in the ledger, and the key
stays in the ledger. -/
theorem claim_C8 (k : String) :
    (∀ (cfg : SR.Config) (l : List String)
        (tree : List (String × List (String × List Scanner.Entry))),
      k ∈ l →
      (∀ e ∈ (SR.scan_tree cfg l tree).1, e.key ≠ k) ∧
        k ∈ (SR.scan_tree cfg l tree).2) ∧
    (∀ (cfg : Direct.Config) (l : List String) (o : Direct.OrderData)
        (scans : List (String × List Scanner.Entry)),
      k ∈ l →
      (∀ e ∈ (Direct.scan_loop cfg l o scans).1, e.key ≠ k) ∧
        k ∈ (Direct.scan_loop cfg l o scans).2) := by
  constructor
  · intro cfg l tree hk
    exact SR.scan_tree_skip cfg k tree l hk
  · intro cfg l o scans hk
    exact Direct.scan_loop_skip cfg o k scans l hk

/-- C8 witness: the marked key `2024-01-15/roll_001` sits in the ledger
while its (ready) folder is still on disk; the pass emits no event for
it. -/
theorem claim_C8_witness :
    "2024-01-15/roll_001" ∈ ["2024-01-15/roll_001"] ∧
    ((∀ e ∈ (SR.scan_tree Samples.srCfgStage ["2024-01-15/roll_001"]
        Samples.tree1).1, e.key ≠ "2024-01-15/roll_001") ∧
      "2024-01-15/roll_001" ∈ (SR.scan_tree Samples.srCfgStage
        ["2024-01-15/roll_001"] Samples.tree1).2) ∧
    ((∀ e ∈ (Direct.scan_loop Samples.dCfg ["2024-01-15/roll_001"]
        Direct.OrderData.stage [("roll_001", [Scanner.Entry.file Samples.photo])]).1,
        e.key ≠ "2024-01-15/roll_001") ∧
      "2024-01-15/roll_001" ∈ (Direct.scan_loop Samples.dCfg
        ["2024-01-15/roll_001"] Direct.OrderData.stage
        [("roll_001", [Scanner.Entry.file Samples.photo])]).2) :=
  ⟨by decide,
   (claim_C8 "2024-01-15/roll_001").1 Samples.srCfgStage _ _ (by decide),
   (claim_C8 "2024-01-15/roll_001").2 Samples.dCfg _ Direct.OrderData.stage _
     (by decide)⟩

/-- C9: in the direct variant, with the `WPPC.jpg` companion present
next to the program, every `upload_folder` call attempts
`<destination>/WPPC.jpg` last (after the job's own files), counts it in
the total, and counts it in the returned success count when it succeeds;
an empty scan folder can therefore report a success count of one. -/
theorem claim_C9 :
    (∀ (files : List Scanner.LocalFile) (dest : String) (ok : String → Bool),
      (Direct.upload_folder files dest true ok).uploads.getLast? =
        some (dest ++ "/WPPC.jpg") ∧
      (dest ++ "/WPPC.jpg") ∈ (Direct.upload_folder files dest true ok).uploads ∧
      (Direct.upload_folder files dest true ok).total = files.length + 1 ∧
      (Direct.upload_folder files dest true ok).count =
        (files.map (fun f => dest ++ "/" ++ f.relPath)).countP ok +
          (if ok (dest ++ "/WPPC.jpg") then 1 else 0)) ∧
    (∀ dest : String,
      (Direct.upload_folder [] dest true (fun _ => true)).count = 1) := by
  constructor
  · intro files dest ok
    refine ⟨?_, ?_, ?_, ?_⟩
    · simp [Direct.upload_folder, List.getLast?_concat]
    · simp [Direct.upload_folder]
    · simp [Direct.upload_folder]
    · simp [Direct.upload_folder]
  · intro dest
    simp [Direct.upload_folder]

/-- C10: when the persisted ledger file exists but cannot be parsed,
`load_state` returns the empty map (no failure), so no key counts as
processed any more and any ready job in the watch root — previously
marked or not — is dispatched again on the next pass. -/
theorem claim_C10 :
    Scanner.load_state Scanner.LedgerFile.corrupt = [] ∧
    (∀ k : String, k ∉ Scanner.load_state Scanner.LedgerFile.corrupt) ∧
    (∀ (cfg : SR.Config)
        (tree : List (String × List (String × List Scanner.Entry)))
        (k : String),
      (∃ b scans, (b, scans) ∈ tree ∧ ∃ s es, (s, es) ∈ scans ∧
        b ++ "/" ++ s = k ∧ SR.ready cfg.now cfg.settle es = true) →
      ∃ d, Scanner.Event.upload k d ∈
        (SR.scan_tree cfg (Scanner.load_state Scanner.LedgerFile.corrupt)
          tree).1) := by
  refine ⟨rfl, by simp [Scanner.load_state], ?_⟩
  intro cfg tree k hocc
  exact SR.scan_tree_dispatches cfg k tree
    (Scanner.load_state Scanner.LedgerFile.corrupt) (by simp [Scanner.load_state])
    hocc

/-- C10 witness: the key `2024-01-15/roll_001` was marked before the
ledger file got corrupted; after loading the corrupt file its ready
folder is dispatched again. -/
theorem claim_C10_witness :
    (∃ b scans, (b, scans) ∈ Samples.tree1 ∧ ∃ s es, (s, es) ∈ scans ∧
      b ++ "/" ++ s = "2024-01-15/roll_001" ∧
      SR.ready Samples.srCfgStage.now Samples.srCfgStage.settle es = true) ∧
    (∃ d, Scanner.Event.upload "2024-01-15/roll_001" d ∈
      (SR.scan_tree Samples.srCfgStage
        (Scanner.load_state Scanner.LedgerFile.corrupt) Samples.tree1).1) := by
  have hocc : ∃ b scans, (b, scans) ∈ Samples.tree1 ∧ ∃ s es, (s, es) ∈ scans ∧
      b ++ "/" ++ s = "2024-01-15/roll_001" ∧
      SR.ready Samples.srCfgStage.now Samples.srCfgStage.settle es = true :=
    ⟨"2024-01-15", [("roll_001", [Scanner.Entry.file Samples.photo])], by decide,
      "roll_001", [Scanner.Entry.file Samples.photo], by decide, by decide, by decide⟩
  exact ⟨hocc, claim_C10.2.2 Samples.srCfgStage Samples.tree1 "2024-01-15/roll_001" hocc⟩

/-- C4 counterexample: a folder whose only file is a week-old, non-empty
`.DS_Store`. Both readiness checks compute over ALL regular files, so
they report the folder ready, although not a single non-junk file exists
— the claim's "ready iff at least one non-junk file exists and ..." is
false on the code. -/
theorem claim_C4_counterexample :
    SR.ready 10000000 1000 [Scanner.Entry.file Samples.dsStore] = true ∧
    Direct.is_ready 10000000 500 [Scanner.Entry.file Samples.dsStore] = true ∧
    Scanner.ready_spec_nonjunk 10000000 1000
      [Scanner.Entry.file Samples.dsStore] = false ∧
    Scanner.is_junk Samples.dsStore = true := by
  decide

/-- C4 amended: the readiness check returns true iff at least one
regular file of ANY kind (junk included) exists and the time since the
maximum modification time over ALL regular files exceeds the settle
threshold; an empty folder is never ready, and any single file — junk
included — modified within the settle window keeps the whole folder not
ready. -/
theorem claim_C4_amended (now settle : Int) (entries : List Scanner.Entry) :
    SR.ready now settle entries = Scanner.ready_spec_all now settle entries ∧
    Direct.is_ready now settle entries =
      Scanner.ready_spec_all now settle entries := by
  constructor
  · cases h : (Scanner.Entry.files entries).isEmpty <;>
      simp [SR.ready, Scanner.ready_spec_all, h]
  · cases hE : entries.isEmpty
    · cases h : (Scanner.Entry.files entries).isEmpty <;>
        simp [Direct.is_ready, Scanner.ready_spec_all, hE, h]
    · have he : entries = [] := by simpa using hE
      subst he
      simp [Direct.is_ready, Scanner.ready_spec_all, Scanner.Entry.files]

/-- C3 counterexample: the direct variant's `upload_folder` collects
every regular file with no junk filtering, so a `.DS_Store` IS included
in the upload set — the claim's "never included" is false on
`scanner_router_direct.py`. -/
theorem claim_C3_counterexample :
    (Direct.upload_folder [Samples.dsStore] "/d" false Samples.okAll).uploads =
      ["/d/.DS_Store"] ∧
    ("/d/.DS_Store") ∈
      (Direct.upload_folder [Samples.dsStore] "/d" false Samples.okAll).uploads ∧
    Scanner.is_junk Samples.dsStore = true := by
  decide

/-- C3 amended: in the watchdog variant (and the interactive variant,
which shares `_is_sane_file`), no junk file — `.DS_Store`, `Thumbs.db`,
`desktop.ini`, dotfiles, zero-byte files — is ever in the upload set;
the direct variant's `upload_folder` instead attempts EVERY regular
file under the folder, junk and zero-byte files included. -/
theorem claim_C3_amended :
    (∀ (now : Int) (files : List Scanner.LocalFile) (f : Scanner.LocalFile),
      f ∈ SR.upload_set now files → Scanner.is_junk f = false) ∧
    (∀ (files : List Scanner.LocalFile) (d : String) (w : Bool)
        (ok : String → Bool) (f : Scanner.LocalFile), f ∈ files →
      (d ++ "/" ++ f.relPath) ∈ (Direct.upload_folder files d w ok).uploads) := by
  constructor
  · intro now files f hf
    have hs : SR.is_sane_file now f = true := (List.mem_filter.mp hf).2
    rw [SR.is_sane_file] at hs
    split at hs
    · exact absurd hs (by simp)
    · rename_i hjunk
      split at hs
      · exact absurd hs (by simp)
      · rename_i hsize
        simp only [Bool.or_eq_true, not_or] at hjunk
        obtain ⟨hdot, hcont⟩ := hjunk
        have hnm : f.name ∉ SR.SKIP_PATTERNS := fun hmem =>
          hcont (by simpa using hmem)
        simp only [SR.SKIP_PATTERNS, List.mem_cons, List.not_mem_nil, or_false,
          not_or] at hnm
        obtain ⟨hds, htd, hdi⟩ := hnm
        have hdot' : Scanner.starts_with_dot f.name = false := by simpa using hdot
        simp [Scanner.is_junk, hds, htd, hdi, hdot', hsize]
  · intro files d w ok f hf
    simp only [Direct.upload_folder, List.mem_append]
    exact Or.inl (List.mem_map_of_mem _ hf)

/-- C3 amended witness: `a.jpg` passes the watchdog filter and is not
junk; the direct variant uploads even the `.DS_Store`. -/
theorem claim_C3_witness :
    Samples.photo ∈ SR.upload_set 10000000 [Samples.photo] ∧
    Scanner.is_junk Samples.photo = false ∧
    Samples.dsStore ∈ [Samples.dsStore] ∧
    ("/d" ++ "/" ++ Samples.dsStore.relPath) ∈
      (Direct.upload_folder [Samples.dsStore] "/d" false Samples.okAll).uploads :=
  have hm : Samples.photo ∈ SR.upload_set 10000000 [Samples.photo] :=
    List.mem_filter.mpr ⟨by simp, by decide⟩
  ⟨hm, claim_C3_amended.1 10000000 [Samples.photo] Samples.photo hm,
   by decide,
   claim_C3_amended.2 [Samples.dsStore] "/d" false Samples.okAll Samples.dsStore
     (by decide)⟩

/-- C1 counterexample: in the watchdog variant, a fresh ready job's
iteration records the key in the ledger FIRST (event index 0) and only
then attempts the upload (event index 1) — `_scan_tree` sets
`STATE[key] = True` and saves before calling `route_job`, refuting
"never records the key in the ledger before the upload is attempted". -/
theorem claim_C1_counterexample :
    (SR.process_job Samples.srCfgStage [] "2024-01-15" "roll_001"
        [Scanner.Entry.file Samples.photo]).1 =
      [Scanner.Event.mark "2024-01-15/roll_001",
       Scanner.Event.upload "2024-01-15/roll_001"
         "/Store/orders/_staging/2024-01-15/roll_001/photos"] ∧
    (SR.process_job Samples.srCfgStage [] "2024-01-15" "roll_001"
        [Scanner.Entry.file Samples.photo]).1.head? =
      some (Scanner.Event.mark "2024-01-15/roll_001") := by
  decide

/-- C1 amended: the direct variant marks the key only after the upload
step returned a non-zero success count — whenever a mark event occurs,
the trace is the upload attempt followed by the mark, and the count was
non-zero; the watchdog variant instead records the key immediately
before attempting the upload (its dispatch trace starts with the mark). -/
theorem claim_C1_amended :
    (∀ (cfg : Direct.Config) (l : List String) (o : Direct.OrderData)
        (s : String) (es : List Scanner.Entry),
      Scanner.Event.mark s ∈ (Direct.process_scan cfg l o s es).1 →
      (Direct.upload_folder (Scanner.Entry.files es) (Direct.scan_dest cfg o s)
          cfg.wppcExists cfg.ok).count ≠ 0 ∧
      (Direct.process_scan cfg l o s es).1 =
        [Scanner.Event.upload s (Direct.scan_dest cfg o s),
         Scanner.Event.mark s]) ∧
    (∀ (cfg : SR.Config) (l : List String) (b s : String)
        (es : List Scanner.Entry),
      (b ++ "/" ++ s) ∉ l → SR.ready cfg.now cfg.settle es = true →
      (SR.process_job cfg l b s es).1.head? =
        some (Scanner.Event.mark (b ++ "/" ++ s))) := by
  constructor
  · intro cfg l o s es hmark
    by_cases h1 : s ∈ l
    · have h1' : l.contains s = true := by simpa using h1
      rw [show Direct.process_scan cfg l o s es = ([], l) by
        simp [Direct.process_scan, h1', h1]] at hmark
      exact absurd hmark (by simp)
    · have h1' : l.contains s = false := by simpa using h1
      cases h2 : Direct.is_ready cfg.now cfg.settle es
      · rw [show Direct.process_scan cfg l o s es = ([], l) by
          simp [Direct.process_scan, h1', h1, h2]] at hmark
        exact absurd hmark (by simp)
      · by_cases h3 : (Direct.upload_folder (Scanner.Entry.files es)
            (Direct.scan_dest cfg o s) cfg.wppcExists cfg.ok).count = 0
        · rw [show Direct.process_scan cfg l o s es =
              ([Scanner.Event.upload s (Direct.scan_dest cfg o s)], l) by
            simp [Direct.process_scan, h1', h1, h2, h3]] at hmark
          simp at hmark
        · exact ⟨h3, by simp [Direct.process_scan, h1', h1, h2, h3]⟩
  · intro cfg l b s es hk hr
    have h1' : l.contains (b ++ "/" ++ s) = false := by simpa using hk
    simp [SR.process_job, h1', hk, hr]

/-- C1 amended witness: a ready staging job in each variant — the direct
variant's trace is upload then mark; the watchdog variant's trace starts
with the mark. -/
theorem claim_C1_witness :
    (Scanner.Event.mark "roll_001" ∈
      (Direct.process_scan Samples.dCfg [] Direct.OrderData.stage "roll_001"
        [Scanner.Entry.file Samples.photo]).1) ∧
    ((Direct.upload_folder
        (Scanner.Entry.files [Scanner.Entry.file Samples.photo])
        (Direct.scan_dest Samples.dCfg Direct.OrderData.stage "roll_001")
        Samples.dCfg.wppcExists Samples.dCfg.ok).count ≠ 0 ∧
      (Direct.process_scan Samples.dCfg [] Direct.OrderData.stage "roll_001"
        [Scanner.Entry.file Samples.photo]).1 =
        [Scanner.Event.upload "roll_001"
          (Direct.scan_dest Samples.dCfg Direct.OrderData.stage "roll_001"),
         Scanner.Event.mark "roll_001"]) ∧
    ("2024-01-15/roll_001" ∉ ([] : List String) ∧
      SR.ready Samples.srCfgStage.now Samples.srCfgStage.settle
        [Scanner.Entry.file Samples.photo] = true ∧
      (SR.process_job Samples.srCfgStage [] "2024-01-15" "roll_001"
        [Scanner.Entry.file Samples.photo]).1.head? =
        some (Scanner.Event.mark ("2024-01-15" ++ "/" ++ "roll_001"))) :=
  ⟨by decide,
   claim_C1_amended.1 Samples.dCfg [] Direct.OrderData.stage "roll_001"
     [Scanner.Entry.file Samples.photo] (by decide),
   by decide, by decide,
   claim_C1_amended.2 Samples.srCfgStage [] "2024-01-15" "roll_001"
     [Scanner.Entry.file Samples.photo] (by decide) (by decide)⟩

/-- C2 counterexample: in the watchdog variant, a job with one sane file
(non-empty input, `total = 1`) whose every upload fails (`count = 0`) is
nonetheless recorded in the ledger — `_scan_tree` marked it before
`route_job` ran — so it is NOT eligible for a later attempt, refuting
the claim. -/
theorem claim_C2_counterexample :
    (SR.upload_folder 10000000 [Samples.photo]
        "/Store/orders/_staging/2024-01-15/roll_001/photos"
        Samples.okNone).total = 1 ∧
    (SR.upload_folder 10000000 [Samples.photo]
        "/Store/orders/_staging/2024-01-15/roll_001/photos"
        Samples.okNone).count = 0 ∧
    ((SR.process_job Samples.srCfgStageFail [] "2024-01-15" "roll_001"
        [Scanner.Entry.file Samples.photo]).2).contains
      "2024-01-15/roll_001" = true := by
  decide

/-- C2 amended: in the direct variant a zero success count leaves the
ledger unchanged and records no mark, so the job stays eligible; in the
watchdog variant the key was already recorded before the upload, so a
dispatched job's key is in the ledger regardless of the upload outcome
and the job is not retried. -/
theorem claim_C2_amended :
    (∀ (cfg : Direct.Config) (l : List String) (o : Direct.OrderData)
        (s : String) (es : List Scanner.Entry),
      (Direct.upload_folder (Scanner.Entry.files es) (Direct.scan_dest cfg o s)
          cfg.wppcExists cfg.ok).count = 0 →
      (Direct.process_scan cfg l o s es).2 = l ∧
      Scanner.Event.mark s ∉ (Direct.process_scan cfg l o s es).1) ∧
    (∀ (cfg : SR.Config) (l : List String) (b s : String)
        (es : List Scanner.Entry),
      (b ++ "/" ++ s) ∉ l → SR.ready cfg.now cfg.settle es = true →
      (b ++ "/" ++ s) ∈ (SR.process_job cfg l b s es).2) := by
  constructor
  · intro cfg l o s es h3
    by_cases h1 : s ∈ l
    · have h1' : l.contains s = true := by simpa using h1
      rw [show Direct.process_scan cfg l o s es = ([], l) by
        simp [Direct.process_scan, h1', h1]]
      exact ⟨rfl, by simp⟩
    · have h1' : l.contains s = false := by simpa using h1
      cases h2 : Direct.is_ready cfg.now cfg.settle es
      · rw [show Direct.process_scan cfg l o s es = ([], l) by
          simp [Direct.process_scan, h1', h1, h2]]
        exact ⟨rfl, by simp⟩
      · rw [show Direct.process_scan cfg l o s es =
            ([Scanner.Event.upload s (Direct.scan_dest cfg o s)], l) by
          simp [Direct.process_scan, h1', h1, h2, h3]]
        exact ⟨rfl, by simp⟩
  · intro cfg l b s es hk hr
    have h1' : l.contains (b ++ "/" ++ s) = false := by simpa using hk
    simp [SR.process_job, h1', hk, hr]

/-- C2 amended witness: with every upload failing, the direct variant
leaves the ledger empty while the watchdog variant still records the
key. -/
theorem claim_C2_witness :
    ((Direct.upload_folder
        (Scanner.Entry.files [Scanner.Entry.file Samples.photo])
        (Direct.scan_dest
          { Samples.dCfg with ok := Samples.okNone }
          Direct.OrderData.stage "roll_001")
        Samples.dCfg.wppcExists Samples.okNone).count = 0 ∧
      ((Direct.process_scan { Samples.dCfg with ok := Samples.okNone } []
          Direct.OrderData.stage "roll_001"
          [Scanner.Entry.file Samples.photo]).2 = [] ∧
        Scanner.Event.mark "roll_001" ∉
          (Direct.process_scan { Samples.dCfg with ok := Samples.okNone } []
            Direct.OrderData.stage "roll_001"
            [Scanner.Entry.file Samples.photo]).1)) ∧
    ("2024-01-15/roll_001" ∉ ([] : List String) ∧
      ("2024-01-15" ++ "/" ++ "roll_001") ∈
        (SR.process_job Samples.srCfgStageFail [] "2024-01-15" "roll_001"
          [Scanner.Entry.file Samples.photo]).2) :=
  ⟨⟨by decide,
    claim_C2_amended.1 { Samples.dCfg with ok := Samples.okNone } []
      Direct.OrderData.stage "roll_001" [Scanner.Entry.file Samples.photo]
      (by decide)⟩,
   by decide,
   claim_C2_amended.2 Samples.srCfgStageFail [] "2024-01-15" "roll_001"
     [Scanner.Entry.file Samples.photo] (by decide) (by decide)⟩

/-- C7 counterexample: in the watchdog variant a staging dispatch of the
job `2024-01-15/roll_001` uploads to
`<root>/_staging/2024-01-15/roll_001/photos` — with a trailing `/photos`
component — and no upload event targets exactly
`<root>/_staging/<job.key>`, refuting "the remote destination is exactly
`<configuredRoot>/_staging/<job.key>`". -/
theorem claim_C7_counterexample :
    Scanner.Event.upload "2024-01-15/roll_001"
        "/Store/orders/_staging/2024-01-15/roll_001/photos" ∈
      (SR.process_job Samples.srCfgStage [] "2024-01-15" "roll_001"
        [Scanner.Entry.file Samples.photo]).1 ∧
    ((SR.process_job Samples.srCfgStage [] "2024-01-15" "roll_001"
        [Scanner.Entry.file Samples.photo]).1.contains
      (Scanner.Event.upload "2024-01-15/roll_001"
        ("/Store/orders" ++ "/_staging/" ++ "2024-01-15/roll_001"))) = false := by
  decide

/-- C7 amended: a staging dispatch in the watchdog variant targets
`<configuredRoot>/_staging/<batch>/<scanId>/photos` (the composite key
plus a `photos` leaf); in the direct variant the job key is the bare
scan-folder name (the watch root already carries the date) and the
destination is exactly `<configuredRoot>/_staging/<scanName>`. -/
theorem claim_C7_amended :
    (∀ (cfg : SR.Config) (l : List String) (b s : String)
        (es : List Scanner.Entry),
      (b ++ "/" ++ s) ∉ l → SR.ready cfg.now cfg.settle es = true →
      cfg.selOf (b ++ "/" ++ s) = SR.Selection.stage →
      (SR.process_job cfg l b s es).1 =
        [Scanner.Event.mark (b ++ "/" ++ s),
         Scanner.Event.upload (b ++ "/" ++ s)
           (cfg.dropboxRoot ++ "/_staging/" ++ b ++ "/" ++ s ++ "/photos")]) ∧
    (∀ (cfg : Direct.Config) (l : List String) (s : String)
        (es : List Scanner.Entry),
      s ∉ l → Direct.is_ready cfg.now cfg.settle es = true →
      (Direct.process_scan cfg l Direct.OrderData.stage s es).1.head? =
        some (Scanner.Event.upload s
          (cfg.dropboxRoot ++ "/_staging/" ++ s))) := by
  constructor
  · intro cfg l b s es hk hr hsel
    have h1' : l.contains (b ++ "/" ++ s) = false := by simpa using hk
    simp [SR.process_job, SR.route_job, h1', hk, hr, hsel]
  · intro cfg l s es hk hr
    have h1' : l.contains s = false := by simpa using hk
    simp only [Direct.process_scan, Direct.scan_dest, h1', hk, hr,
      Bool.false_eq_true, if_false, Bool.not_true]
    split <;> simp

/-- C7 amended witness: concrete staging dispatches in both variants. -/
theorem claim_C7_witness :
    ("2024-01-15/roll_001" ∉ ([] : List String) ∧
      SR.ready Samples.srCfgStage.now Samples.srCfgStage.settle
        [Scanner.Entry.file Samples.photo] = true ∧
      Samples.srCfgStage.selOf ("2024-01-15" ++ "/" ++ "roll_001") =
        SR.Selection.stage ∧
      (SR.process_job Samples.srCfgStage [] "2024-01-15" "roll_001"
        [Scanner.Entry.file Samples.photo]).1 =
        [Scanner.Event.mark ("2024-01-15" ++ "/" ++ "roll_001"),
         Scanner.Event.upload ("2024-01-15" ++ "/" ++ "roll_001")
           (Samples.srCfgStage.dropboxRoot ++ "/_staging/" ++ "2024-01-15" ++
             "/" ++ "roll_001" ++ "/photos")]) ∧
    ("roll_001" ∉ ([] : List String) ∧
      Direct.is_ready Samples.dCfg.now Samples.dCfg.settle
        [Scanner.Entry.file Samples.photo] = true ∧
      (Direct.process_scan Samples.dCfg [] Direct.OrderData.stage "roll_001"
        [Scanner.Entry.file Samples.photo]).1.head? =
        some (Scanner.Event.upload "roll_001"
          (Samples.dCfg.dropboxRoot ++ "/_staging/" ++ "roll_001"))) :=
  ⟨⟨by decide, by decide, rfl,
    claim_C7_amended.1 Samples.srCfgStage [] "2024-01-15" "roll_001"
      [Scanner.Entry.file Samples.photo] (by decide) (by decide) rfl⟩,
   ⟨by decide, by decide,
    claim_C7_amended.2 Samples.dCfg [] "roll_001"
      [Scanner.Entry.file Samples.photo] (by decide) (by decide)⟩⟩

/-- C5 counterexample: for a customer carrying a stored shared-link URL
that the object-store client resolves to the canonical (relocated) path
`/team folder/customers/a@b.com`, the direct variant ignores the link
and recomputes `<configuredRoot>/<email>`, and the interactive variant
returns the URL itself as the "path" — neither uses the resolved
canonical remote path, refuting the claim for those variants. -/
theorem claim_C5_counterexample :
    Samples.rlSample "https://www.dropbox.com/scl/fo/x" =
      some "/team folder/customers/a@b.com" ∧
    (Direct.ensure_customer_order_folder "/Orders" Samples.nodeLinked).1 =
      "/Orders" ++ "/" ++ "a@b.com" ∧
    (Direct.ensure_customer_order_folder "/Orders" Samples.nodeLinked).1 ≠
      "/team folder/customers/a@b.com" ∧
    (Interactive.get_or_create_customer_root "/Store/orders" (fun _ => none)
        Samples.nodeLinked).1 = "https://www.dropbox.com/scl/fo/x" ∧
    (SR.get_or_create_customer_root "/Store/orders" Samples.rlSample
        (fun _ => none) Samples.nodeLinked).1 =
      "/team folder/customers/a@b.com" := by
  decide

/-- C5 amended: only the watchdog variant resolves a stored shared-link
URL to its canonical remote path and uses that path as the customer
root; the interactive variant returns the stored URL itself as the root;
the direct variant always recomputes `<configuredRoot>/<email>` (the
stored link merely skips its background link-creation task). -/
theorem claim_C5_amended :
    (∀ (root : String) (rl ml : String → Option String)
        (node : Scanner.OrderNode) (url path : String),
      node.metafieldValue = some url → url ≠ "" →
      rl url = some path → path ≠ "" →
      SR.get_or_create_customer_root root rl ml node = (path, some url)) ∧
    (∀ (root : String) (ml : String → Option String)
        (node : Scanner.OrderNode) (url : String),
      node.metafieldValue = some url → url ≠ "" →
      Interactive.get_or_create_customer_root root ml node = (url, some url)) ∧
    (∀ (root : String) (node : Scanner.OrderNode),
      (Direct.ensure_customer_order_folder root node).1 =
        root ++ "/" ++ Scanner.py_lower (Scanner.py_strip
          (node.customerEmail.getD (node.orderEmail.getD "unknown")))) := by
  refine ⟨?_, ?_, ?_⟩
  · intro root rl ml node url path hmeta hurl hrl hpath
    simp [SR.get_or_create_customer_root, Scanner.truthy, hmeta, hurl, hrl, hpath]
  · intro root ml node url hmeta hurl
    simp [Interactive.get_or_create_customer_root, Scanner.truthy, hmeta, hurl]
  · intro root node
    simp [Direct.ensure_customer_order_folder]

/-- C5 amended witness: the linked customer record of the
counterexample, run through all three variants. -/
theorem claim_C5_witness :
    (Samples.nodeLinked.metafieldValue = some "https://www.dropbox.com/scl/fo/x" ∧
      "https://www.dropbox.com/scl/fo/x" ≠ "" ∧
      Samples.rlSample "https://www.dropbox.com/scl/fo/x" =
        some "/team folder/customers/a@b.com" ∧
      "/team folder/customers/a@b.com" ≠ "" ∧
      SR.get_or_create_customer_root "/Store/orders" Samples.rlSample
        (fun _ => none) Samples.nodeLinked =
        ("/team folder/customers/a@b.com",
          some "https://www.dropbox.com/scl/fo/x")) ∧
    (Interactive.get_or_create_customer_root "/Store/orders" (fun _ => none)
        Samples.nodeLinked =
      ("https://www.dropbox.com/scl/fo/x",
        some "https://www.dropbox.com/scl/fo/x")) ∧
    ((Direct.ensure_customer_order_folder "/Orders" Samples.nodeLinked).1 =
      "/Orders" ++ "/" ++ Scanner.py_lower (Scanner.py_strip
        (Samples.nodeLinked.customerEmail.getD
          (Samples.nodeLinked.orderEmail.getD "unknown")))) :=
  ⟨⟨rfl, by decide, rfl, by decide,
    claim_C5_amended.1 "/Store/orders" Samples.rlSample (fun _ => none)
      Samples.nodeLinked "https://www.dropbox.com/scl/fo/x"
      "/team folder/customers/a@b.com" rfl (by decide) rfl (by decide)⟩,
   claim_C5_amended.2.1 "/Store/orders" (fun _ => none) Samples.nodeLinked
     "https://www.dropbox.com/scl/fo/x" rfl (by decide),
   claim_C5_amended.2.2 "/Orders" Samples.nodeLinked⟩

/-- C6: the combined query `136720s` parses to order number `136720`
with the single pending tag `s`; `set_order_gui` stores the parsed tags
on the new assignment instead of applying them, and when the previous
state was Assigned with non-empty pending tags (and a non-empty order
gid), it applies exactly those tags to the PREVIOUS order before
overwriting; with no previous pending tags it fires no tag mutation at
all. -/
theorem claim_C6 :
    Direct.parse_order_query "136720s" = some ("136720", ["s"]) ∧
    (∀ (search : String → Option Scanner.OrderNode) (g no em : String)
        (nd : Scanner.OrderNode) (op : Option String) (pend : List String)
        (raw n : String) (ts : List String) (found : Scanner.OrderNode),
      raw ≠ "" → Scanner.py_lower raw ≠ "stage" →
      Direct.parse_order_query raw = some (n, ts) →
      search n = some found → pend ≠ [] → g ≠ "" →
      Direct.set_order_gui search
          (some (Direct.OrderData.assigned g no em nd op pend)) raw none =
        ([Direct.Action.applyTags g pend],
         some (Direct.OrderData.assigned found.orderGid
           (Direct.strip_hash found.name) (found.orderEmail.getD "unknown")
           found none ts),
         true)) ∧
    (∀ (search : String → Option Scanner.OrderNode) (g no em : String)
        (nd : Scanner.OrderNode) (op : Option String)
        (raw n : String) (ts : List String) (found : Scanner.OrderNode),
      raw ≠ "" → Scanner.py_lower raw ≠ "stage" →
      Direct.parse_order_query raw = some (n, ts) →
      search n = some found →
      Direct.set_order_gui search
          (some (Direct.OrderData.assigned g no em nd op [])) raw none =
        ([],
         some (Direct.OrderData.assigned found.orderGid
           (Direct.strip_hash found.name) (found.orderEmail.getD "unknown")
           found none ts),
         true)) := by
  refine ⟨by decide, ?_, ?_⟩
  · intro search g no em nd op pend raw n ts found hraw hstage hparse hsearch
      hpend hg
    have hp : pend.isEmpty = false := by simpa using hpend
    simp [Direct.set_order_gui, hraw, hstage, hparse, hsearch, hp, hg]
  · intro search g no em nd op raw n ts found hraw hstage hparse hsearch
    simp [Direct.set_order_gui, hraw, hstage, hparse, hsearch]

/-- C6 witness: the operator types `136720s` while order `#136719` with
pending tag `urgent` is assigned; the tag goes to `#136719` and `s`
becomes the new pending tag of `#136720`. -/
theorem claim_C6_witness :
    Direct.parse_order_query "136720s" = some ("136720", ["s"]) ∧
    ("136720s" ≠ "" ∧ Scanner.py_lower "136720s" ≠ "stage" ∧
      Samples.searchSample "136720" = some Samples.nodePlain ∧
      (["urgent"] : List String) ≠ [] ∧ "gid1" ≠ "" ∧
      Direct.set_order_gui Samples.searchSample
          (some (Direct.OrderData.assigned "gid1" "136719" "e@f.com"
            Samples.nodePlain none ["urgent"])) "136720s" none =
        ([Direct.Action.applyTags "gid1" ["urgent"]],
         some (Direct.OrderData.assigned Samples.nodePlain.orderGid
           (Direct.strip_hash Samples.nodePlain.name)
           (Samples.nodePlain.orderEmail.getD "unknown")
           Samples.nodePlain none ["s"]),
         true)) ∧
    (Direct.set_order_gui Samples.searchSample
        (some (Direct.OrderData.assigned "gid1" "136719" "e@f.com"
          Samples.nodePlain none [])) "136720s" none =
      ([],
       some (Direct.OrderData.assigned Samples.nodePlain.orderGid
         (Direct.strip_hash Samples.nodePlain.name)
         (Samples.nodePlain.orderEmail.getD "unknown")
         Samples.nodePlain none ["s"]),
       true)) :=
  ⟨claim_C6.1,
   ⟨by decide, by decide, rfl, by decide, by decide,
    claim_C6.2.1 Samples.searchSample "gid1" "136719" "e@f.com"
      Samples.nodePlain none ["urgent"] "136720s" "136720" ["s"]
      Samples.nodePlain (by decide) (by decide) (by decide) rfl (by decide)
      (by decide)⟩,
   claim_C6.2.2 Samples.searchSample "gid1" "136719" "e@f.com"
     Samples.nodePlain none "136720s" "136720" ["s"] Samples.nodePlain
     (by decide) (by decide) (by decide) rfl⟩
